import Mathlib

/-!
# Slide-Timers: formal model of the duration-resolution engine

A shallow embedding of `src/main.py`: the annotation patterns
(`RANGE_PATTERN`, `SPEAKER_NOTES_PATTERN`, `UNWANTED_PATTERN` used with
`re.match(..., re.IGNORECASE)`), the range-budget arithmetic, the per-slide
resolution cascade of `add_videos`, and the `TIMER_VIDEOS` table.

Slides are modelled at the level the Python code observes them: an optional
`objectId` string, and the page elements of the slide body and of its notes
page, each carrying the optional `content` strings of its text runs.
Python exceptions (`ValueError` from `int`, `KeyError` from the video-table
lookup, `EOFError` from `input`) are modelled with `Except`.
-/

deriving instance DecidableEq for Except

namespace SlideTimers

/-- Python exceptions the modelled code can raise. -/
inductive PyError where
  | valueError : PyError
  | keyError : String → PyError
  | eofError : PyError
deriving DecidableEq, Repr

/-! ## Character classes and matching primitives (Python `re`, ASCII range) -/

/-- Case-insensitive character comparison (`re.IGNORECASE`).  The annotation
vocabulary is ASCII apart from the literal `ó` of `lección`, which is already
lowercase in both the pattern and the texts considered here. -/
def charCI (a b : Char) : Bool := a.toLower == b.toLower

/-- Python regex `\s` (ASCII range). -/
def isPySpace (c : Char) : Bool :=
  c == ' ' || c == '\t' || c == '\n' || c == '\r' || c == '\x0b' || c == '\x0c'

/-- Python regex `\w` (ASCII range), used for the `\b` word boundaries of
`UNWANTED_PATTERN`. -/
def isPyWord (c : Char) : Bool := c.isAlphanum || c == '_'

/-- Consume the literal `pat` case-insensitively from the front of `s`,
returning the rest of `s` on success. -/
def litCI : List Char → List Char → Option (List Char)
  | [], s => some s
  | _ :: _, [] => none
  | p :: ps, c :: cs => if charCI p c then litCI ps cs else none

/-- Regex `\d+`: a maximal nonempty digit run, returned with the rest. -/
def digits1 : List Char → Option (List Char × List Char)
  | [] => none
  | c :: rest =>
    if c.isDigit then some (c :: rest.takeWhile Char.isDigit, rest.dropWhile Char.isDigit)
    else none

/-- Regex `\s+`: at least one whitespace character, consumed maximally. -/
def spaces1 : List Char → Option (List Char)
  | [] => none
  | c :: rest => if isPySpace c then some (rest.dropWhile isPySpace) else none

/-- Numeric value of a digit run (what Python `int` computes on a captured
all-digit group). -/
def natOfDigits (ds : List Char) : Nat :=
  ds.foldl (fun a c => 10 * a + (c.toNat - '0'.toNat)) 0

/-- Python `int(s)` on the strings this program converts: it succeeds exactly
on nonempty all-digit strings and raises `ValueError` otherwise (in
particular on `"2.5"`, a fractional capture of the suggested-time regex, and
on a non-numeric `objectId` remainder). -/
def pyIntOfString (s : String) : Option Int :=
  if s.data ≠ [] && s.data.all Char.isDigit then some (natOfDigits s.data) else none

/-- Python `str.lstrip("p")`: drop every leading `p`. -/
def lstripP (s : String) : String := String.mk (s.data.dropWhile (· == 'p'))

/-! ## The three annotation patterns -/

/-- Model of `re.match(SPEAKER_NOTES_PATTERN, text, re.IGNORECASE)` reduced to its
capture group 3 (the numeral), the only group the source reads.

The pattern is
`((tiempo sugerido|suggested time)\s*[:\-]?\s*(\d+(?:\.\d+)?)(\s*-\s*\d+(?:\.\d+)?)?\s*(minutos|minutes|min)?)`.
`re.match` anchors at the start of the text.  After group 3 every remaining
piece (`(\s*-\s*\d+(?:\.\d+)?)?`, `\s*`, `(minutos|minutes|min)?`) is
optional, so the overall match succeeds exactly when the phrase, an optional
separator and a numeral are present; the numeral is returned verbatim,
including a fractional part when one follows. -/
def speakerNotesGroup3 (t : String) : Option String :=
  match (litCI "tiempo sugerido".data t.data).orElse
      (fun _ => litCI "suggested time".data t.data) with
  | none => none
  | some s1 =>
    let s2 := s1.dropWhile isPySpace
    let s3 := match s2 with
      | c :: rest => if c == ':' || c == '-' then rest else s2
      | [] => s2
    let s4 := s3.dropWhile isPySpace
    match digits1 s4 with
    | none => none
    | some (ds, s5) =>
      match s5 with
      | '.' :: s6 =>
        match digits1 s6 with
        | some (fs, _) => some (String.mk (ds ++ '.' :: fs))
        | none => some (String.mk ds)
      | _ => some (String.mk ds)

/-- The `\bpara\s+diapositivas\b` core of `UNWANTED_PATTERN`, tried at one
position; the word boundary before `para` is checked by the caller. -/
def paraDiapositivasAt (s : List Char) : Bool :=
  match litCI "para".data s with
  | none => false
  | some s1 =>
    match s1 with
    | [] => false
    | c :: rest =>
      if isPySpace c then
        match litCI "diapositivas".data (rest.dropWhile isPySpace) with
        | none => false
        | some [] => true
        | some (d :: _) => !isPyWord d
      else false

/-- The scan performed by `re.match(UNWANTED_PATTERN, text, re.IGNORECASE)`
for `UNWANTED_PATTERN = ".*\bpara\s+diapositivas\b[\s\S]*"`: the leading `.*`
walks over non-newline characters looking for a word-boundary occurrence of
`para\s+diapositivas\b`; `prev` is the character just before the current
position (`none` at the start of the text). -/
def unwantedFrom (prev : Option Char) : List Char → Bool
  | [] => false
  | c :: rest =>
    if paraDiapositivasAt (c :: rest)
        && (match prev with | none => true | some d => !isPyWord d) then true
    else if c == '\n' then false
    else unwantedFrom (some c) rest

/-- Whether `re.match(UNWANTED_PATTERN, text, re.IGNORECASE)` succeeds. -/
def unwantedMatch (t : String) : Bool := unwantedFrom none t.data

/-- Model of `re.match(RANGE_PATTERN, text, re.IGNORECASE)` yielding
`(int(start), int(end), int(minutes))`.  The pattern is
`Diapositivas\s+(?P<start>\d+)\s*[–—-]\s*(?P<end>\d+)\s+Para esta lección,\s*planifique aproximadamente:\s*(?P<minutes>\d+)\s+minutos`. -/
def rangeMatch (t : String) : Option (Int × Int × Int) :=
  (litCI "diapositivas".data t.data).bind fun s1 =>
  (spaces1 s1).bind fun s2 =>
  (digits1 s2).bind fun (sd, s3) =>
  (match s3.dropWhile isPySpace with
   | c :: rest => if c == '–' || c == '—' || c == '-' then some rest else none
   | [] => none).bind fun s5 =>
  (digits1 (s5.dropWhile isPySpace)).bind fun (ed, s7) =>
  (spaces1 s7).bind fun s8 =>
  (litCI "para esta lección,".data s8).bind fun s9 =>
  (litCI "planifique aproximadamente:".data (s9.dropWhile isPySpace)).bind fun s11 =>
  (digits1 (s11.dropWhile isPySpace)).bind fun (md, s13) =>
  (spaces1 s13).bind fun s14 =>
  (litCI "minutos".data s14).map fun _ =>
  ((natOfDigits sd : Int), (natOfDigits ed : Int), (natOfDigits md : Int))

/-! ## Slides and text extraction -/

/-- One page element: the optional `content` strings of its text runs
(`none` models a text element without a `textRun` or without `content`,
which contributes nothing to the flattened text). -/
structure PageElement where
  runs : List (Option String)
deriving DecidableEq

/-- Flattened text of a page element: the concatenation, in order, of every
run's content (the inner loops of `get_range` and
`get_suggested_time_for_slide`). -/
def fullText (pe : PageElement) : String :=
  pe.runs.foldl (fun acc r => acc ++ r.getD "") ""

/-- A slide as the engine observes it.  A notes element lacking a `shape` or
a `text` key is represented by an element with no runs: its flattened text
`""` matches neither pattern, which is equivalent to the source's
`continue`. -/
structure Slide where
  objectId : Option String
  bodyElements : List PageElement
  notesElements : List PageElement
deriving DecidableEq

/-- The element scan of `get_range`: first body element whose flattened text
matches `RANGE_PATTERN` yields `(start, end, minutes)`. -/
def getRangeAux : List PageElement → Option (Int × Int × Int)
  | [] => none
  | pe :: rest =>
    match rangeMatch (fullText pe) with
    | some r => some r
    | none => getRangeAux rest

/-- Function `get_range`: start, end, and total minutes of a range declaration found
on the slide, if any. -/
def get_range (slide : Slide) : Option (Int × Int × Int) :=
  getRangeAux slide.bodyElements

/-- The element scan of `get_suggested_time_for_slide`: the first notes
element whose flattened text matches `SPEAKER_NOTES_PATTERN` but not
`UNWANTED_PATTERN` yields `int(group 3)`, which raises `ValueError` when the
captured numeral is fractional. -/
def getSuggestedAux : List PageElement → Except PyError (Option Int)
  | [] => .ok none
  | pe :: rest =>
    match speakerNotesGroup3 (fullText pe), unwantedMatch (fullText pe) with
    | some g, false =>
      match pyIntOfString g with
      | some n => .ok (some n)
      | none => .error .valueError
    | _, _ => getSuggestedAux rest

/-- Function `get_suggested_time_for_slide`: suggested time from the slide's speaker
notes, `none` when absent or suppressed by the unwanted-pattern guard. -/
def get_suggested_time_for_slide (slide : Slide) : Except PyError (Option Int) :=
  getSuggestedAux slide.notesElements

/-! ## Range arithmetic -/

/-- Function `get_num_slides_in_range`. -/
def get_num_slides_in_range (start end_ : Int) : Int := end_ - start + 1

/-- Python `int(q)` on a float/rational: truncation toward zero. -/
def pyTrunc (q : ℚ) : Int := if 0 ≤ q then ⌊q⌋ else ⌈q⌉

/-- Function `get_avg_time_per_slide_in_range`: the source computes
`avg = minutes / num_slides` (true division) and returns
`int(math.floor(avg * 2) / 2)` — note the outer `int(...)`, which truncates
the half-minute-resolution value to a whole number of minutes.

Embedded with exact integer arithmetic (the values in play are far below
any float-precision boundary): `math.floor(avg * 2)` is the floor of the
exact rational `2 * minutes / num_slides`, i.e. `Int.fdiv (2 * minutes)
num_slides`, and `int(x / 2)` truncates toward zero, i.e. `Int.tdiv x 2`.
The lemma `get_avg_eq_float_formula` below proves this equal to the
rational-valued formula `int(floor((minutes / num_slides) * 2) / 2)` on the
reachable domain (`num_slides > 0`, `minutes ≥ 0`; at `num_slides = 0`
Python raises `ZeroDivisionError`, which no claim exercises). -/
def get_avg_time_per_slide_in_range (num_slides minutes : Int) : Int :=
  Int.tdiv (Int.fdiv (2 * minutes) num_slides) 2

/-- Function `is_slide_in_range`, on the already-extracted slide number:
`slide_number >= start and slide_number <= end`. -/
def is_slide_in_range (slide_number start end_ : Int) : Bool :=
  start ≤ slide_number && slide_number ≤ end_

/-- The loop of `add_all_suggested_times_in_range`: slides without an
`objectId` are skipped; a slide number that does not parse raises
`ValueError`; in-range slides contribute their suggested time. -/
def addAllSuggestedAux (start end_ : Int) : List Slide → Except PyError Int
  | [] => .ok 0
  | slide :: rest =>
    match slide.objectId with
    | none => addAllSuggestedAux start end_ rest
    | some oid =>
      match pyIntOfString (lstripP oid) with
      | none => .error .valueError
      | some n =>
        if start ≤ n && n ≤ end_ then
          match get_suggested_time_for_slide slide with
          | .error e => .error e
          | .ok none => addAllSuggestedAux start end_ rest
          | .ok (some v) => (addAllSuggestedAux start end_ rest).map (fun tot => v + tot)
        else addAllSuggestedAux start end_ rest

/-- Function `add_all_suggested_times_in_range`: sum of the suggested times of the
slides numbered within `[start, end]`. -/
def add_all_suggested_times_in_range (slides : List Slide) (start end_ : Int) :
    Except PyError Int :=
  addAllSuggestedAux start end_ slides

/-! ## The timer-video table -/

/-- Table `TIMER_VIDEOS`: the curated duration-to-video table. -/
def TIMER_VIDEOS : List (String × String) :=
  [ ("1", "https://www.youtube.com/watch?v=OUQXwVIQw54"),
    ("2", "https://www.youtube.com/watch?v=R36tED8kLsU"),
    ("3", "https://www.youtube.com/watch?v=07T16GrtySQ"),
    ("4", "https://www.youtube.com/watch?v=zVHWhLme2NQ"),
    ("5", "https://www.youtube.com/watch?v=h6Hr8IJLpLo"),
    ("6", "https://www.youtube.com/watch?v=2Zdyu2lE-dM"),
    ("7", "https://www.youtube.com/watch?v=Em14gkKfczM"),
    ("8", "https://www.youtube.com/watch?v=xwgVlLn2Btc"),
    ("9", "https://www.youtube.com/watch?v=RA9KsHy6Ejo"),
    ("10", "https://www.youtube.com/watch?v=v77I_bByCDQ"),
    ("15", "https://www.youtube.com/watch?v=u_BcMXgws6Y"),
    ("20", "https://www.youtube.com/watch?v=kxGWsHYITAw"),
    ("25", "https://www.youtube.com/watch?v=WctdLnMAOPg") ]

/-- Dictionary lookup `TIMER_VIDEOS[key]`; `none` models the `KeyError`. -/
def timerVideosLookup (key : String) : Option String :=
  (TIMER_VIDEOS.find? (fun p => p.fst == key)).map Prod.snd

/-- Scan of `get_video_id`: `url.partition("v=")[2]`, the part after the first
occurrence of `v=` (empty when there is none). -/
def getVideoIdAux : List Char → List Char
  | [] => []
  | 'v' :: '=' :: rest => rest
  | _ :: rest => getVideoIdAux rest

/-- Function `get_video_id` on a URL string. -/
def get_video_id (url : String) : String := String.mk (getVideoIdAux url.data)

/-! ## The resolution engine (`add_videos`) -/

/-- The mutable locals of `add_videos`, all initialised to `0`/empty.
`insertions` records each inserted timer as
`(slide_number, slide_duration, video_id)`; `inputs` models the operator's
pending console replies to the conflict prompt (`int(input(...))`). -/
structure EngineState where
  inserted_count : Nat
  mins_assigned_so_far : Int
  range_start : Int
  range_end : Int
  range_total_mins : Int
  range_avg_mins_per_slide : Int
  range_mins_assigned_so_far : Int
  range_info_slide_number : Int
  slide_suggested_mins : Int
  slide_duration : Int
  insertions : List (Int × Int × String)
  inputs : List Int
deriving DecidableEq

/-- The state at the top of `add_videos`, with the operator's replies. -/
def initState (inputs : List Int) : EngineState :=
  { inserted_count := 0
    mins_assigned_so_far := 0
    range_start := 0
    range_end := 0
    range_total_mins := 0
    range_avg_mins_per_slide := 0
    range_mins_assigned_so_far := 0
    range_info_slide_number := 0
    slide_suggested_mins := 0
    slide_duration := 0
    insertions := []
    inputs := inputs }

/-- The "check if start of new range" block of `add_videos`: on a
`RANGE_PATTERN` match it overwrites the active range fields and recomputes
the average, then computes the diagnostic sum of suggested times over the
new range (used only for an operator warning, but able to raise).  The
accumulator `range_mins_assigned_so_far` is not touched by this block. -/
def applyRangeCheck (slides : List Slide) (st : EngineState) (slide : Slide)
    (slide_number : Int) : Except PyError EngineState :=
  match get_range slide with
  | none => .ok st
  | some (s, e, m) =>
    (add_all_suggested_times_in_range slides s e).map fun _ =>
      { st with
        range_info_slide_number := slide_number
        range_start := s
        range_end := e
        range_total_mins := m
        range_avg_mins_per_slide :=
          get_avg_time_per_slide_in_range (get_num_slides_in_range s e) m }

/-- One iteration of the slide loop of `add_videos`: number the slide,
process a possible range declaration, read the slide's suggested time, then
run the decision cascade (skip / operator-resolved conflict / range average /
own suggested time), look the duration up in `TIMER_VIDEOS` (raising
`KeyError` on a miss) and insert the timer video. -/
def processSlide (slides : List Slide) (st : EngineState) (slide : Slide) :
    Except PyError EngineState :=
  match slide.objectId with
  | none => .ok st
  | some oid =>
    match pyIntOfString (lstripP oid) with
    | none => .error .valueError
    | some slide_number =>
      match applyRangeCheck slides st slide slide_number with
      | .error e => .error e
      | .ok st1 =>
        let slide_in_range :=
          is_slide_in_range slide_number st1.range_start st1.range_end
        match get_suggested_time_for_slide slide with
        | .error e => .error e
        | .ok resp =>
          let st2 := match resp with
            | some v => { st1 with slide_suggested_mins := v }
            | none => st1
          if !slide_in_range && st2.slide_suggested_mins == 0 then .ok st2
          else
            match
              (if slide_in_range && st2.slide_suggested_mins != 0 then
                 match st2.inputs with
                 | [] => .error PyError.eofError
                 | d :: rest =>
                   .ok { st2 with
                         slide_duration := d
                         mins_assigned_so_far := st2.mins_assigned_so_far + d
                         range_mins_assigned_so_far :=
                           st2.range_mins_assigned_so_far + d
                         inputs := rest }
               else if slide_in_range then
                 .ok { st2 with
                       slide_duration := st2.range_avg_mins_per_slide
                       mins_assigned_so_far :=
                         st2.mins_assigned_so_far + st2.range_avg_mins_per_slide
                       range_mins_assigned_so_far :=
                         st2.range_mins_assigned_so_far + st2.range_avg_mins_per_slide }
               else
                 .ok { st2 with
                       slide_duration := st2.slide_suggested_mins
                       mins_assigned_so_far :=
                         st2.mins_assigned_so_far + st2.slide_suggested_mins } :
                Except PyError EngineState)
            with
            | .error e => .error e
            | .ok st3 =>
              match timerVideosLookup (toString st3.slide_duration) with
              | none => .error (.keyError (toString st3.slide_duration))
              | some url =>
                if url == "" then .ok st3
                else
                  .ok { st3 with
                        insertions := st3.insertions ++
                          [(slide_number, st3.slide_duration, get_video_id url)]
                        inserted_count := st3.inserted_count + 1
                        slide_suggested_mins := 0
                        slide_duration := 0 }

/-- What a run of `add_videos` leaves behind: the inserted timers in order,
the final count, and the uncaught exception that aborted the run, if any
(an exception propagates out of the loop, so slides after it are never
processed). -/
structure RunOutcome where
  insertions : List (Int × Int × String)
  inserted_count : Nat
  error : Option PyError
deriving DecidableEq

/-- The slide loop of `add_videos`. -/
def addVideosAux (slides : List Slide) : EngineState → List Slide → RunOutcome
  | st, [] => { insertions := st.insertions, inserted_count := st.inserted_count,
                error := none }
  | st, slide :: rest =>
    match processSlide slides st slide with
    | .ok st2 => addVideosAux slides st2 rest
    | .error e => { insertions := st.insertions,
                    inserted_count := st.inserted_count, error := some e }

/-- Function `add_videos`, as a function of the deck and the operator's replies. -/
def add_videos (slides : List Slide) (inputs : List Int) : RunOutcome :=
  addVideosAux slides (initState inputs) slides

/-! ## Spec-modelled lifecycle pieces

The spec describes two near-duplicate source variants; only the range-budget
variant is under `src/`.  The exit-ticket rule lives in the lifecycle
variant, so it is modelled from the spec's own words here. -/

/-- Modelled from the spec: exit-ticket detection of the lifecycle source
variant (not under `src/`): it fires exactly when the slide matches the
exit-ticket pattern and the slide is the deck's second-to-last slide,
`slide_number == total_slides - 2`. -/
def exitTicketFires (matchesPattern : Bool) (slide_number total_slides : Int) : Bool :=
  matchesPattern && (slide_number == total_slides - 2)

/-- Modelled from the spec: the per-slide duration resolution of the
lifecycle variant's cascade (steps 2-6 of the spec's decision cascade),
returning the assigned duration (`none` = no timer) and the updated
`presentation_ended` flag.  Once `ended` is set no further timer is
assigned; an exit-ticket slide gets the fixed duration 10 regardless of the
range budget or its own suggested time and sets `ended`. -/
def lifecycleResolve (ended : Bool) (exitMatch : Bool)
    (slide_number total_slides : Int) (in_range : Bool) (range_avg : Int)
    (suggested : Option Int) (operator_choice : Int) : Option Int × Bool :=
  if ended then (none, true)
  else if exitTicketFires exitMatch slide_number total_slides then (some 10, true)
  else if in_range then
    match suggested with
    | some _ => (some operator_choice, false)
    | none => (some range_avg, false)
  else
    match suggested with
    | some s => (some s, false)
    | none => (none, false)

/-- The decision cascade's five branch conditions with the cascade's
priority made explicit, in evaluation order: the spec-modelled exit-ticket
check first, then the four guards of the cascade in `add_videos`
(skip when out of range and unannotated; operator-resolved conflict when in
range with an own suggested time; range average when in range without one;
own suggested time otherwise). -/
def branchConds (exit_fires in_range : Bool) (suggested : Int) : List Bool :=
  [ exit_fires,
    !exit_fires && (!in_range && suggested == 0),
    !exit_fires && !(!in_range && suggested == 0) && (in_range && suggested != 0),
    !exit_fires && !(!in_range && suggested == 0) && !(in_range && suggested != 0)
      && in_range,
    !exit_fires && !(!in_range && suggested == 0) && !(in_range && suggested != 0)
      && !in_range ]

/-! ## Concrete decks and states used by the claims -/

/-- A notes page with a single text element. -/
def mkNotes (t : String) : List PageElement := [⟨[some t]⟩]

/-- The range declaration of the spec's scenario: slides 3-6, 10 minutes. -/
def rangeDeclText36 : String :=
  "Diapositivas 3-6 Para esta lección, planifique aproximadamente: 10 minutos"

/-- The spec's scenario deck: six slides, the range declaration on slide 3,
no slide carrying its own suggested time. -/
def scenarioDeck36 : List Slide :=
  [ { objectId := some "p1", bodyElements := [], notesElements := [] },
    { objectId := some "p2", bodyElements := [], notesElements := [] },
    { objectId := some "p3", bodyElements := [⟨[some rangeDeclText36]⟩],
      notesElements := [] },
    { objectId := some "p4", bodyElements := [], notesElements := [] },
    { objectId := some "p5", bodyElements := [], notesElements := [] },
    { objectId := some "p6", bodyElements := [], notesElements := [] } ]

/-- A deck whose first slide resolves to 11 minutes (no `TIMER_VIDEOS`
entry) and whose second slide resolves to 5 minutes (mapped). -/
def deckUnmapped : List Slide :=
  [ { objectId := some "p1", bodyElements := [],
      notesElements := mkNotes "suggested time: 11 minutes" },
    { objectId := some "p2", bodyElements := [],
      notesElements := mkNotes "suggested time: 5 minutes" } ]

/-- A slide declaring the range 2-2 with a 3-minute budget. -/
def declSlide22 : Slide :=
  { objectId := some "p2",
    bodyElements :=
      [⟨[some "Diapositivas 2-2 Para esta lección, planifique aproximadamente: 3 minutos"]⟩],
    notesElements := [] }

/-- An engine state in which 5 minutes have already been assigned under a
previous range. -/
def stAccum5 : EngineState := { initState [] with range_mins_assigned_so_far := 5 }

/-- State `stAccum5` right after processing the range declaration of
`declSlide22`. -/
def stAccum5After : EngineState :=
  { stAccum5 with
    range_info_slide_number := 2
    range_start := 2
    range_end := 2
    range_total_mins := 3
    range_avg_mins_per_slide := 3 }

/-- A slide whose notes parse to the suggested time 0. -/
def slideSug0 : Slide :=
  { objectId := some "p7", bodyElements := [],
    notesElements := mkNotes "suggested time: 0 minutes" }

/-- The same slide with no annotation at all. -/
def slideNoNotes : Slide :=
  { objectId := some "p7", bodyElements := [], notesElements := [] }

/-- A slide whose notes carry a fractional suggested time. -/
def slideFractional : Slide :=
  { objectId := some "p1", bodyElements := [],
    notesElements := mkNotes "suggested time: 2.5 minutes" }

/-- The spec's unwanted-pattern scenario text. -/
def unwantedScenarioText : String :=
  "tiempo sugerido: 3 minutos para diapositivas 1-10"

/-! ## Helper lemmas -/

theorem pyTrunc_of_nonneg {q : ℚ} (h : 0 ≤ q) : pyTrunc q = ⌊q⌋ := if_pos h

theorem fdiv_natCast (a b : ℕ) : Int.fdiv (a : ℤ) (b : ℤ) = ((a / b : ℕ) : ℤ) :=
  (Int.ofNat_fdiv a b).symm

theorem tdiv_natCast_two (a : ℕ) : Int.tdiv (a : ℤ) 2 = ((a / 2 : ℕ) : ℤ) := by
  exact_mod_cast (Int.ofNat_tdiv a 2).symm

theorem get_avg_eq_natDiv (n m : ℕ) :
    get_avg_time_per_slide_in_range (n : ℤ) (m : ℤ) = ((m / n : ℕ) : ℤ) := by
  unfold get_avg_time_per_slide_in_range
  have h2 : (2 : ℤ) * (m : ℤ) = ((2 * m : ℕ) : ℤ) := by push_cast; ring
  rw [h2, fdiv_natCast, tdiv_natCast_two]
  norm_cast
  rw [Nat.div_div_eq_div_mul, Nat.mul_comm n 2]
  exact Nat.mul_div_mul_left m n (by norm_num)

theorem floor_ratCast_div (a b : ℕ) :
    ⌊((a : ℚ) / (b : ℚ))⌋ = ((a / b : ℕ) : ℤ) := by
  rw [Rat.floor_natCast_div_natCast]
  exact_mod_cast rfl

theorem get_avg_eq_float_formula (n m : ℤ) (hn : 0 < n) (hm : 0 ≤ m) :
    get_avg_time_per_slide_in_range n m
      = pyTrunc ((⌊((m : ℚ) / (n : ℚ)) * 2⌋ : ℚ) / 2) := by
  obtain ⟨N, rfl⟩ : ∃ N : ℕ, n = (N : ℤ) := ⟨n.toNat, (Int.toNat_of_nonneg hn.le).symm⟩
  obtain ⟨M, rfl⟩ : ∃ M : ℕ, m = (M : ℤ) := ⟨m.toNat, (Int.toNat_of_nonneg hm).symm⟩
  have hx : (((M : ℤ)) : ℚ) / (((N : ℤ)) : ℚ) * 2 = ((2 * M : ℕ) : ℚ) / ((N : ℕ) : ℚ) := by
    push_cast; ring
  rw [get_avg_eq_natDiv, hx, floor_ratCast_div]
  have h1 : (((2 * M / N : ℕ) : ℤ) : ℚ) / 2 = ((2 * M / N : ℕ) : ℚ) / ((2 : ℕ) : ℚ) := by
    rw [Int.cast_natCast, Nat.cast_ofNat]
  rw [h1, pyTrunc_of_nonneg (by positivity), floor_ratCast_div]
  have hN2 : 2 * M / N / 2 = M / N := by
    rw [Nat.div_div_eq_div_mul, Nat.mul_comm N 2]
    exact Nat.mul_div_mul_left M N (by norm_num)
  rw [hN2]

theorem litCI_mem {pat s s2 : List Char} (h : litCI pat s = some s2) :
    ∀ c ∈ s2, c ∈ s := by
  induction pat generalizing s with
  | nil =>
    simp only [litCI] at h
    injection h with h2
    subst h2
    exact fun c hc => hc
  | cons p ps ih =>
    cases s with
    | nil => exact absurd h (by simp [litCI])
    | cons c0 cs =>
      simp only [litCI] at h
      by_cases hci : charCI p c0
      · rw [if_pos hci] at h
        exact fun c hc => List.mem_cons_of_mem _ (ih h c hc)
      · rw [if_neg hci] at h
        exact absurd h (by simp)

theorem dropWhile_mem {p : Char → Bool} :
    ∀ {l : List Char} {c : Char}, c ∈ l.dropWhile p → c ∈ l := by
  intro l
  induction l with
  | nil => intro c hc; simp at hc
  | cons a t ih =>
    intro c hc
    by_cases hpa : p a
    · rw [List.dropWhile_cons, if_pos hpa] at hc
      exact List.mem_cons_of_mem _ (ih hc)
    · rw [List.dropWhile_cons, if_neg hpa] at hc
      exact hc

theorem sepStep_mem {s2 : List Char} {c : Char}
    (hc : c ∈ (match s2 with
      | c0 :: rest => if c0 == ':' || c0 == '-' then rest else s2
      | [] => s2)) : c ∈ s2 := by
  cases s2 with
  | nil => simp at hc
  | cons c0 rest =>
    by_cases h0 : (c0 == ':' || c0 == '-') = true
    · rw [show (match c0 :: rest with
          | c1 :: r => if c1 == ':' || c1 == '-' then r else c0 :: rest
          | [] => c0 :: rest) = if c0 == ':' || c0 == '-' then rest else c0 :: rest
          from rfl, if_pos h0] at hc
      exact List.mem_cons_of_mem _ hc
    · rw [show (match c0 :: rest with
          | c1 :: r => if c1 == ':' || c1 == '-' then r else c0 :: rest
          | [] => c0 :: rest) = if c0 == ':' || c0 == '-' then rest else c0 :: rest
          from rfl, if_neg h0] at hc
      exact hc

theorem digits1_some {s ds rest : List Char} (h : digits1 s = some (ds, rest)) :
    ∃ c ∈ s, c.isDigit = true := by
  cases s with
  | nil => exact absurd h (by simp [digits1])
  | cons c t =>
    by_cases hc : c.isDigit
    · exact ⟨c, List.mem_cons_self _ _, hc⟩
    · exact absurd h (by simp [digits1, hc])

theorem speakerNotes_some_has_digit {t g : String}
    (h : speakerNotesGroup3 t = some g) : ∃ c ∈ t.data, c.isDigit = true := by
  unfold speakerNotesGroup3 at h
  cases horElse : (litCI "tiempo sugerido".data t.data).orElse
      (fun _ => litCI "suggested time".data t.data) with
  | none => rw [horElse] at h; exact absurd h (by simp)
  | some s1 =>
    rw [horElse] at h
    have hs1 : ∀ c ∈ s1, c ∈ t.data := by
      cases h1 : litCI "tiempo sugerido".data t.data with
      | some s1a =>
        have he : s1a = s1 := by
          rw [h1] at horElse
          simpa [Option.orElse] using horElse
        subst he
        exact litCI_mem h1
      | none =>
        have h2 : litCI "suggested time".data t.data = some s1 := by
          rw [h1] at horElse
          simpa [Option.orElse] using horElse
        exact litCI_mem h2
    dsimp only at h
    cases hd : digits1 (((match s1.dropWhile isPySpace with
        | c :: rest => if c == ':' || c == '-' then rest else s1.dropWhile isPySpace
        | [] => s1.dropWhile isPySpace)).dropWhile isPySpace) with
    | none => rw [hd] at h; exact absurd h (by simp)
    | some pr =>
      obtain ⟨ds, s5⟩ := pr
      obtain ⟨c, hcmem, hcdig⟩ := digits1_some hd
      exact ⟨c, hs1 c (dropWhile_mem (sepStep_mem (dropWhile_mem hcmem))), hcdig⟩

/-! ## The claims -/

/-- Claim C1, counterexample: at the range declaration start 3, end 6,
total 10 minutes (slide count 4), the code computes 2, while the spec's
formula `floor((total_minutes / slide_count) * 2) / 2` gives 5/2; the
half-minute value is truncated, so the claimed equality fails. -/
theorem c1_counterexample :
    get_avg_time_per_slide_in_range (get_num_slides_in_range 3 6) 10 = 2
    ∧ (⌊((10 : ℚ) / ((get_num_slides_in_range 3 6 : ℤ) : ℚ)) * 2⌋ : ℚ) / 2 = 5 / 2
    ∧ ((2 : ℚ) ≠ 5 / 2) := by
  refine ⟨by decide, ?_, by norm_num⟩
  rw [show get_num_slides_in_range 3 6 = 4 from rfl]
  norm_num

/-- Claim C1, amended: for every range declaration with start ≤ end and
non-negative total minutes, the computed average is the floor of the true
average `total_minutes / slide_count` — a non-negative whole number of
minutes; the outer `int(...)` truncates half-minute values rather than
preserving them. -/
theorem c1_avg_is_whole_minute_floor (s e m : ℤ) (hse : s ≤ e) (hm : 0 ≤ m) :
    get_avg_time_per_slide_in_range (get_num_slides_in_range s e) m
      = ⌊(m : ℚ) / ((get_num_slides_in_range s e : ℤ) : ℚ)⌋
    ∧ 0 ≤ get_avg_time_per_slide_in_range (get_num_slides_in_range s e) m := by
  have hn : 0 < get_num_slides_in_range s e := by
    unfold get_num_slides_in_range; omega
  obtain ⟨N, hN⟩ : ∃ N : ℕ, get_num_slides_in_range s e = (N : ℤ) :=
    ⟨(get_num_slides_in_range s e).toNat, (Int.toNat_of_nonneg hn.le).symm⟩
  obtain ⟨M, hM⟩ : ∃ M : ℕ, m = (M : ℤ) := ⟨m.toNat, (Int.toNat_of_nonneg hm).symm⟩
  rw [hN, hM, get_avg_eq_natDiv]
  refine ⟨?_, Int.natCast_nonneg _⟩
  rw [show (((M : ℤ)) : ℚ) = ((M : ℕ) : ℚ) from by norm_cast,
    show ((((N : ℕ) : ℤ)) : ℚ) = ((N : ℕ) : ℚ) from by norm_cast,
    floor_ratCast_div]

/-- Witness for C1's amended theorem at start 3, end 6, total 10. -/
theorem c1_avg_is_whole_minute_floor_witness :
    ((3 : ℤ) ≤ 6 ∧ (0 : ℤ) ≤ 10)
    ∧ get_avg_time_per_slide_in_range (get_num_slides_in_range 3 6) 10
        = ⌊(10 : ℚ) / ((get_num_slides_in_range 3 6 : ℤ) : ℚ)⌋ :=
  ⟨⟨by norm_num, by norm_num⟩,
    (c1_avg_is_whole_minute_floor 3 6 10 (by norm_num) (by norm_num)).1⟩

/-- Claim C2, counterexample: on the scenario deck (range 3-6, 10 minutes,
no per-slide suggested times) the run finishes with no error — no
unsupported-duration condition is raised — and every one of slides 3-6 is
assigned duration 2, not 2.5, because the average is truncated and `"2"` is
a key of the table. -/
theorem c2_counterexample :
    (add_videos scenarioDeck36 []).error = none
    ∧ (add_videos scenarioDeck36 []).insertions.map (fun i => (i.1, i.2.1))
        = [(3, 2), (4, 2), (5, 2), (6, 2)]
    ∧ timerVideosLookup "2" = some "https://www.youtube.com/watch?v=R36tED8kLsU" := by
  refine ⟨by decide, by decide, by decide⟩

/-- Claim C2, amended: on the scenario deck each of slides 3-6 resolves to
the truncated average of 2 minutes, the table lookup succeeds (2 is a key),
and the 2-minute timer video is inserted on all four slides with no
unsupported-duration condition. -/
theorem c2_resolves_to_two_minute_timers :
    add_videos scenarioDeck36 [] =
      { insertions := [(3, 2, "R36tED8kLsU"), (4, 2, "R36tED8kLsU"),
          (5, 2, "R36tED8kLsU"), (6, 2, "R36tED8kLsU")],
        inserted_count := 4, error := none }
    ∧ get_avg_time_per_slide_in_range (get_num_slides_in_range 3 6) 10 = 2 := by
  refine ⟨by decide, by decide⟩

/-- Claim C3, counterexample: processing the range declaration of
`declSlide22` from a state in which 5 minutes were assigned under a previous
range replaces the budget fields, but leaves the range-scoped accumulator at
5, not 0. -/
theorem c3_counterexample :
    applyRangeCheck [declSlide22] stAccum5 declSlide22 2 = .ok stAccum5After
    ∧ get_range declSlide22 = some (2, 2, 3)
    ∧ stAccum5After.range_mins_assigned_so_far = 5
    ∧ (5 : ℤ) ≠ 0 := by
  refine ⟨by decide, by decide, by decide, by decide⟩

/-- Claim C3, amended: on a range-declaration match the engine replaces the
active budget (start, end, total) and recomputes the average, but does not
reset the range-scoped minutes-assigned accumulator: it carries over
unchanged from the previous range. -/
theorem c3_range_update_preserves_accumulator
    (slides : List Slide) (st : EngineState) (slide : Slide) (n s e m : ℤ)
    (st2 : EngineState) (h1 : get_range slide = some (s, e, m))
    (h2 : applyRangeCheck slides st slide n = .ok st2) :
    st2.range_start = s ∧ st2.range_end = e ∧ st2.range_total_mins = m
    ∧ st2.range_info_slide_number = n
    ∧ st2.range_avg_mins_per_slide
        = get_avg_time_per_slide_in_range (get_num_slides_in_range s e) m
    ∧ st2.range_mins_assigned_so_far = st.range_mins_assigned_so_far := by
  simp only [applyRangeCheck, h1] at h2
  cases hd : add_all_suggested_times_in_range slides s e with
  | error err => rw [hd] at h2; exact absurd h2 (by simp [Except.map])
  | ok tot =>
    rw [hd] at h2
    simp only [Except.map] at h2
    injection h2 with h2
    subst h2
    exact ⟨rfl, rfl, rfl, rfl, rfl, rfl⟩

/-- Witness for C3's amended theorem on `declSlide22` and `stAccum5`. -/
theorem c3_range_update_preserves_accumulator_witness :
    (get_range declSlide22 = some (2, 2, 3)
      ∧ applyRangeCheck [declSlide22] stAccum5 declSlide22 2 = .ok stAccum5After)
    ∧ stAccum5After.range_mins_assigned_so_far = stAccum5.range_mins_assigned_so_far :=
  ⟨⟨by decide, by decide⟩,
    (c3_range_update_preserves_accumulator [declSlide22] stAccum5 declSlide22
      2 2 2 3 stAccum5After (by decide) (by decide)).2.2.2.2.2⟩

/-- Claim C4 (spec-modelled): when exit-ticket detection fires the resolved
duration is the fixed 10 minutes regardless of the range average, the
slide's own suggested time, or the operator's choice, and the ended flag is
set so that no later slide is assigned a timer; detection fires exactly when
the pattern matches and the slide is the second-to-last one. -/
theorem c4_exit_ticket_fixed_duration (exitMatch : Bool) (n total : ℤ)
    (in_range : Bool) (range_avg : ℤ) (suggested : Option ℤ) (op : ℤ) :
    (exitTicketFires exitMatch n total = true →
      lifecycleResolve false exitMatch n total in_range range_avg suggested op
        = (some 10, true))
    ∧ (exitTicketFires exitMatch n total = true ↔ exitMatch = true ∧ n = total - 2)
    ∧ lifecycleResolve true exitMatch n total in_range range_avg suggested op
        = (none, true) := by
  refine ⟨fun h => ?_, ?_, ?_⟩
  · simp [lifecycleResolve, h]
  · simp [exitTicketFires]
  · simp [lifecycleResolve]

/-- Witness for C4 at slide 5 of 7 with competing annotations present. -/
theorem c4_exit_ticket_fixed_duration_witness :
    exitTicketFires true 5 7 = true
    ∧ lifecycleResolve false true 5 7 true 3 (some 4) 9 = (some 10, true) :=
  ⟨by decide, (c4_exit_ticket_fixed_duration true 5 7 true 3 (some 4) 9).1 (by decide)⟩

/-- Claim C5: whenever a slide's flattened notes text matches the
unwanted pattern, the suggested-time extraction returns no suggested time,
even if the suggested-time pattern also matches that text. -/
theorem c5_unwanted_guard_suppresses (oid : Option String)
    (body : List PageElement) (t : String) (h : unwantedMatch t = true) :
    get_suggested_time_for_slide
      { objectId := oid, bodyElements := body, notesElements := [⟨[some t]⟩] }
      = .ok none := by
  show getSuggestedAux [⟨[some t]⟩] = .ok none
  have ht : fullText ⟨[some t]⟩ = t := rfl
  simp only [getSuggestedAux, ht, h]
  cases speakerNotesGroup3 t <;> rfl

/-- Witness for C5 on the spec's scenario text, where the suggested-time
pattern also matches (capturing 3). -/
theorem c5_unwanted_guard_suppresses_witness :
    unwantedMatch unwantedScenarioText = true
    ∧ speakerNotesGroup3 unwantedScenarioText = some "3"
    ∧ get_suggested_time_for_slide
        { objectId := none, bodyElements := [],
          notesElements := [⟨[some unwantedScenarioText]⟩] } = .ok none :=
  ⟨by decide, by decide,
    c5_unwanted_guard_suppresses none [] unwantedScenarioText (by decide)⟩

/-- Claim C6, counterexample: the phrase `"suggested time: 5"`, in which
both the numeric range suffix and the trailing unit suffix are absent, does
produce a match — the extraction returns the value 5, not no-match. -/
theorem c6_counterexample :
    speakerNotesGroup3 "suggested time: 5" = some "5"
    ∧ get_suggested_time_for_slide
        { objectId := some "p1", bodyElements := [],
          notesElements := mkNotes "suggested time: 5" } = .ok (some 5) := by
  refine ⟨by decide, by decide⟩

/-- Claim C6, amended: the range suffix and the unit suffix are each
optional and their absence does not prevent a match; what is required is the
main numeral — a text containing no digit at all produces no match. -/
theorem c6_match_requires_numeral (t : String)
    (h : t.data.all (fun c => !c.isDigit) = true) :
    speakerNotesGroup3 t = none := by
  cases hm : speakerNotesGroup3 t with
  | none => rfl
  | some g =>
    obtain ⟨c, hcmem, hcdig⟩ := speakerNotes_some_has_digit hm
    have hc := List.all_eq_true.mp h c hcmem
    rw [hcdig] at hc
    exact absurd hc (by simp)

/-- Witness for C6's amended theorem on the digit-free phrase
`"suggested time:"`. -/
theorem c6_match_requires_numeral_witness :
    ("suggested time:".data.all (fun c => !c.isDigit) = true)
    ∧ speakerNotesGroup3 "suggested time:" = none :=
  ⟨by decide, c6_match_requires_numeral "suggested time:" (by decide)⟩

/-- Claim C7, counterexample: on `deckUnmapped` the unmapped 11-minute
duration of slide 1 raises an uncaught `KeyError` naming only the value, the
run aborts with zero insertions, and slide 2 — whose own 5-minute duration
is mapped — never receives its timer, so processing of the remaining slides
does not continue. -/
theorem c7_counterexample :
    add_videos deckUnmapped [] =
      { insertions := [], inserted_count := 0, error := some (.keyError "11") }
    ∧ timerVideosLookup "5" = some "https://www.youtube.com/watch?v=h6Hr8IJLpLo"
    ∧ timerVideosLookup "11" = none := by
  refine ⟨by decide, by decide, by decide⟩

/-- Claim C7, amended: a slide whose resolved duration has no entry in the
duration table raises an uncaught `KeyError` carrying the duration value
(not the slide number); the slide is left without a timer and nothing is
silently defaulted, but the exception aborts the run, so the remaining
slides are not processed. -/
theorem c7_unmapped_duration_keyerror
    (slides : List Slide) (st : EngineState) (slide : Slide) (oid : String)
    (n v : ℤ) (h1 : slide.objectId = some oid)
    (h2 : pyIntOfString (lstripP oid) = some n)
    (h3 : get_range slide = none)
    (h4 : get_suggested_time_for_slide slide = .ok (some v))
    (h5 : is_slide_in_range n st.range_start st.range_end = false)
    (h6 : v ≠ 0)
    (h7 : timerVideosLookup (toString v) = none) :
    processSlide slides st slide = .error (.keyError (toString v)) := by
  have hv : (v == 0) = false := by simp [h6]
  simp [processSlide, applyRangeCheck, h1, h2, h3, h4, h5, hv, h7]

/-- Witness for C7's amended theorem on the 11-minute slide of
`deckUnmapped`. -/
theorem c7_unmapped_duration_keyerror_witness :
    timerVideosLookup "11" = none
    ∧ processSlide [] (initState [])
        { objectId := some "p1", bodyElements := [],
          notesElements := mkNotes "suggested time: 11 minutes" }
        = .error (.keyError "11") :=
  ⟨by decide,
    c7_unmapped_duration_keyerror [] (initState [])
      { objectId := some "p1", bodyElements := [],
        notesElements := mkNotes "suggested time: 11 minutes" }
      "p1" 1 11 (by decide) (by decide) (by decide) (by decide) (by decide)
      (by decide) (by decide)⟩

/-- Claim C8: the decision cascade's branch conditions, taken with the
cascade's priority, are mutually exclusive and exhaustive — on every input
exactly one of the five outcomes (exit ticket, skip, operator-resolved
conflict, range average, own suggested time) is selected. -/
theorem c8_exactly_one_branch (exit_fires in_range : Bool) (suggested : ℤ) :
    (branchConds exit_fires in_range suggested).count true = 1 := by
  by_cases hs : suggested = 0 <;>
    cases exit_fires <;> cases in_range <;>
    simp [branchConds, hs, List.count_cons]

/-- Claim C9: the suggested-time pattern accepts the fractional phrase
`"suggested time: 2.5 minutes"` (capturing `"2.5"`), but `int("2.5")`
raises, so the extraction raises `ValueError` instead of returning a value
or no-match. -/
theorem c9_fractional_capture_raises :
    speakerNotesGroup3 "suggested time: 2.5 minutes" = some "2.5"
    ∧ pyIntOfString "2.5" = none
    ∧ get_suggested_time_for_slide slideFractional = .error .valueError := by
  refine ⟨by decide, by decide, by decide⟩

/-- Claim C10: a parsed suggested time of 0 is indistinguishable from an
absent annotation — outside the active range, a slide whose notes parse to
suggested time 0 is skipped with the state unchanged, exactly like the same
slide with no annotation at all. -/
theorem c10_zero_suggested_skipped_like_unannotated
    (slides : List Slide) (st : EngineState) (slideA slideB : Slide)
    (oid : String) (n : ℤ)
    (ha1 : slideA.objectId = some oid) (hb1 : slideB.objectId = some oid)
    (h2 : pyIntOfString (lstripP oid) = some n)
    (ha3 : get_range slideA = none) (hb3 : get_range slideB = none)
    (ha4 : get_suggested_time_for_slide slideA = .ok (some 0))
    (hb4 : get_suggested_time_for_slide slideB = .ok none)
    (h5 : is_slide_in_range n st.range_start st.range_end = false)
    (h6 : st.slide_suggested_mins = 0) :
    processSlide slides st slideA = .ok st
    ∧ processSlide slides st slideB = .ok st := by
  have hst : { st with slide_suggested_mins := 0 } = st := by
    cases st
    simp_all
  constructor
  · simp [processSlide, applyRangeCheck, ha1, h2, ha3, ha4, h5, hst]
  · simp [processSlide, applyRangeCheck, hb1, h2, hb3, hb4, h5, h6]

/-- Witness for C10 on `slideSug0` and `slideNoNotes` (both numbered 7,
outside the initial empty range). -/
theorem c10_zero_suggested_skipped_like_unannotated_witness :
    (get_suggested_time_for_slide slideSug0 = .ok (some 0)
      ∧ get_suggested_time_for_slide slideNoNotes = .ok none)
    ∧ processSlide [] (initState []) slideSug0 = .ok (initState [])
    ∧ processSlide [] (initState []) slideNoNotes = .ok (initState []) :=
  ⟨⟨by decide, by decide⟩,
    c10_zero_suggested_skipped_like_unannotated [] (initState []) slideSug0
      slideNoNotes "p7" 7 (by decide) (by decide) (by decide) (by decide)
      (by decide) (by decide) (by decide) (by decide) (by decide)⟩

end SlideTimers
